import Mathlib

/-!
Verification of the client-side script `src/js/main.js` of the
CipherCoders repository: a promotional popup, two form-submission
handlers posting to a remote endpoint, and FAQ accordion toggles.

DOM elements are shallowly embedded as their class lists, with
`classList.add` / `remove` / `toggle` / `contains` modelled after
DOMTokenList semantics.  The asynchronous fetch is embedded as an
explicit outcome (success response, non-ok response, or a thrown
network error), and each event handler becomes a pure state
transformer.
-/

/-- A DOM element, abstracted to the list of CSS classes it carries
(the only element state the script manipulates). -/
structure Elem where
  classes : List String
deriving Repr, DecidableEq

/-- `classList.contains c`. -/
def Elem.hasClass (e : Elem) (c : String) : Bool :=
  e.classes.contains c

/-- `classList.add c`: appends the token unless already present. -/
def Elem.addClass (e : Elem) (c : String) : Elem :=
  if e.hasClass c then e else { classes := e.classes ++ [c] }

/-- `classList.remove c`: removes every occurrence of the token. -/
def Elem.removeClass (e : Elem) (c : String) : Elem :=
  { classes := e.classes.filter (fun x => x != c) }

/-- `classList.toggle c`: removes the token when present, adds it
otherwise. -/
def Elem.toggleClass (e : Elem) (c : String) : Elem :=
  if e.hasClass c then e.removeClass c else e.addClass c

/-- The visibility class the script adds to / removes from the popup
and toggles on FAQ answers (`"show"` in `main.js`). -/
def showClass : String := "show"

/-- The rotation class toggled on an FAQ entry's arrow indicator
(`"rotate"` in `main.js`). -/
def rotateClass : String := "rotate"

/-- The fixed delay, in milliseconds, before the popup is shown
(`setTimeout(..., 1000)` in `main.js` line 7). -/
def popupDelayMs : Nat := 1000

/-- State of the popup element `t` milliseconds after page-ready, given
its initial state: line 7 of `main.js` schedules
`popup.classList.add("show")` after `popupDelayMs`, guarded by
`if (popup)`; a missing element (`none`) is left untouched. -/
def popupSetup (popup : Option Elem) (t : Nat) : Option Elem :=
  match popup with
  | none => none
  | some p => some (if popupDelayMs ≤ t then p.addClass showClass else p)

/-- The close button's click handler (`main.js` line 8):
`popup.classList.remove("show")`.  The closure dereferences `popup`
with no null guard, so a missing popup makes the invocation throw a
`TypeError`; this is embedded as `Except`. -/
def closeBtnClickHandler (popup : Option Elem) : Except String Elem :=
  match popup with
  | none => Except.error "TypeError: popup is null"
  | some p => Except.ok (p.removeClass showClass)

/-- Outcome of the awaited `fetch` call, as the handler can observe it:
the promise resolved with `res.ok` true, resolved with `res.ok` false,
or rejected (network-level failure caught by the `catch`). -/
inductive FetchOutcome
  | success
  | httpError
  | networkThrow
deriving Repr, DecidableEq

/-- The three status strings a form handler can display. -/
structure FormMessages where
  successText : String
  failText : String
  connErrorText : String
deriving Repr, DecidableEq

/-- Status strings of the VIP form handler (`main.js` lines 22 and 24). -/
def vipMessages : FormMessages :=
  { successText := "Заявка отправлена!"
    failText := "Ошибка отправки."
    connErrorText := "Ошибка соединения." }

/-- Status strings of the contact form handler (`main.js` lines 39 and 41). -/
def contactMessages : FormMessages :=
  { successText := "Сообщение отправлено!"
    failText := "Ошибка."
    connErrorText := "Ошибка соединения." }

/-- The state a form submission handler manipulates: the form's current
field values and the text content of its status element (a separate
DOM node, untouched by `form.reset()`). -/
structure FormState where
  fields : List String
  statusText : String
deriving Repr, DecidableEq

/-- `form.reset()`: clears every field value, leaving the status
element alone. -/
def FormState.reset (s : FormState) : FormState :=
  { s with fields := s.fields.map (fun _ => "") }

/-- All of the form's fields are empty. -/
def FormState.fieldsEmpty (s : FormState) : Bool :=
  s.fields.all (fun v => v == "")

/-- The submit handler shared by both forms (`main.js` lines 17-27 and
34-44): after `preventDefault` and serialising the fields, the `try`
block awaits the POST and writes the success or the failure string to
the status element depending on `res.ok`; the `catch` writes the
connection-error string; in every case `form.reset()` then runs. -/
def submitHandler (msgs : FormMessages) (outcome : FetchOutcome) (s : FormState) :
    FormState :=
  let s1 :=
    match outcome with
    | FetchOutcome.success => { s with statusText := msgs.successText }
    | FetchOutcome.httpError => { s with statusText := msgs.failText }
    | FetchOutcome.networkThrow => { s with statusText := msgs.connErrorText }
  s1.reset

/-- An FAQ entry whose sub-elements are present, as manipulated by the
click handler attached at `main.js` lines 55-58. -/
structure FaqEntry where
  answer : Elem
  arrow : Elem
deriving Repr, DecidableEq

/-- The click handler of an FAQ entry's question (`main.js` lines
55-58): toggles `"show"` on the answer and `"rotate"` on the arrow. -/
def faqClickHandler (e : FaqEntry) : FaqEntry :=
  { answer := e.answer.toggleClass showClass
    arrow := e.arrow.toggleClass rotateClass }

/-- Effect, on the page's list of FAQ entries, of clicking the question
of the entry at index `i`: only that entry's own handler runs, a
closure over that entry's sub-elements alone (`main.js` lines 50-59). -/
def faqPageClick : List FaqEntry → Nat → List FaqEntry
  | [], _ => []
  | e :: rest, 0 => faqClickHandler e :: rest
  | e :: rest, Nat.succ n => e :: faqPageClick rest n

/-- A `.faq-item` DOM subtree as found by `querySelectorAll`: each of
its sub-elements may be missing (`querySelector` returns null). -/
structure FaqItemDom where
  question : Option Elem
  answer : Option Elem
  arrow : Option Elem
deriving Repr, DecidableEq

/-- A handler successfully attached to an entry's question: the closure
captures that entry's answer and arrow query results. -/
structure AttachedHandler where
  answer : Option Elem
  arrow : Option Elem
deriving Repr, DecidableEq

/-- The attachment loop `faqItems.forEach(...)` (`main.js` lines
48-59).  Each iteration queries the three sub-elements (never
throwing) and then calls `question.addEventListener`, which throws a
`TypeError` when `question` is null; a throw inside `forEach`
propagates, so later iterations never run while handlers attached by
earlier iterations remain.  Returns the attached handlers in order and
whether the loop threw. -/
def attachFaqHandlers : List FaqItemDom → List AttachedHandler × Bool
  | [] => ([], false)
  | item :: rest =>
    match item.question with
    | none => ([], true)
    | some _ =>
      let r := attachFaqHandlers rest
      ({ answer := item.answer, arrow := item.arrow } :: r.1, r.2)

/-! ### Basic class-list lemmas -/

theorem Elem.hasClass_addClass_self (e : Elem) (c : String) :
    (e.addClass c).hasClass c = true := by
  unfold Elem.addClass
  by_cases h : e.hasClass c = true
  · simp [h]
  · simp only [h, if_neg, Bool.not_eq_true] at *
    simp [Elem.hasClass, h]

theorem Elem.hasClass_removeClass_self (e : Elem) (c : String) :
    (e.removeClass c).hasClass c = false := by
  unfold Elem.removeClass Elem.hasClass
  simp

theorem Elem.hasClass_toggleClass_self (e : Elem) (c : String) :
    (e.toggleClass c).hasClass c = !e.hasClass c := by
  unfold Elem.toggleClass
  by_cases h : e.hasClass c = true
  · simp [h, Elem.hasClass_removeClass_self]
  · simp only [Bool.not_eq_true] at h
    simp [h, Elem.hasClass_addClass_self]

theorem FormState.fieldsEmpty_reset (s : FormState) :
    s.reset.fieldsEmpty = true := by
  unfold FormState.reset FormState.fieldsEmpty
  simp

theorem submitHandler_statusText (msgs : FormMessages) (o : FetchOutcome)
    (s : FormState) :
    (submitHandler msgs o s).statusText =
      match o with
      | FetchOutcome.success => msgs.successText
      | FetchOutcome.httpError => msgs.failText
      | FetchOutcome.networkThrow => msgs.connErrorText := by
  cases o <;> rfl

/-! ### Claim theorems -/

/-- C1: for either form, when the submit handler runs and the POST
resolves with an ok response, the handler sets the status element's
text to that form's success string, and afterwards all the form's
fields are empty. -/
theorem submit_success_reports_and_resets (s : FormState) :
    ((submitHandler vipMessages FetchOutcome.success s).statusText =
        vipMessages.successText
      ∧ (submitHandler vipMessages FetchOutcome.success s).fieldsEmpty = true)
    ∧ ((submitHandler contactMessages FetchOutcome.success s).statusText =
        contactMessages.successText
      ∧ (submitHandler contactMessages FetchOutcome.success s).fieldsEmpty = true) :=
  ⟨⟨rfl, FormState.fieldsEmpty_reset _⟩, rfl, FormState.fieldsEmpty_reset _⟩

/-- C2: for either form, when the submit handler runs and the remote
call throws, the handler sets the status element's text to the
connection-error string, and afterwards all the form's fields are
empty. -/
theorem submit_network_error_reports_and_resets (s : FormState) :
    ((submitHandler vipMessages FetchOutcome.networkThrow s).statusText =
        vipMessages.connErrorText
      ∧ (submitHandler vipMessages FetchOutcome.networkThrow s).fieldsEmpty = true)
    ∧ ((submitHandler contactMessages FetchOutcome.networkThrow s).statusText =
        contactMessages.connErrorText
      ∧ (submitHandler contactMessages FetchOutcome.networkThrow s).fieldsEmpty = true) :=
  ⟨⟨rfl, FormState.fieldsEmpty_reset _⟩, rfl, FormState.fieldsEmpty_reset _⟩

/-- C3: for every outcome of a form submission (success, non-ok HTTP
response, or thrown network error) and for either form's messages, the
submit handler leaves every form field empty: the reset runs
unconditionally. -/
theorem submit_always_resets (msgs : FormMessages) (o : FetchOutcome)
    (s : FormState) :
    (submitHandler msgs o s).fieldsEmpty = true := by
  cases o <;> exact FormState.fieldsEmpty_reset _

/-- C4 counterexample: it is not the case that at most two distinct
user-facing status texts arise; the VIP form produces three pairwise
distinct texts across the three outcomes, so non-ok HTTP responses and
thrown network errors are not collapsed to one text. -/
theorem submit_two_texts_counterexample :
    ¬ ∃ t1 t2 : String, ∀ o : FetchOutcome,
        (submitHandler vipMessages o { fields := [], statusText := "" }).statusText = t1
        ∨ (submitHandler vipMessages o { fields := [], statusText := "" }).statusText = t2 := by
  rintro ⟨t1, t2, h⟩
  have h1 := h FetchOutcome.success
  have h2 := h FetchOutcome.httpError
  have h3 := h FetchOutcome.networkThrow
  rw [submitHandler_statusText] at h1 h2 h3
  simp only [vipMessages] at h1 h2 h3
  rcases h1 with h1 | h1 <;> rcases h2 with h2 | h2 <;> rcases h3 with h3 | h3 <;>
    first
      | exact absurd (h1.trans h2.symm) (by decide)
      | exact absurd (h1.trans h3.symm) (by decide)
      | exact absurd (h2.trans h3.symm) (by decide)

/-- C4 amended: per form submission the handler distinguishes three
outcomes in the user-facing text, not two: the success response, the
non-ok HTTP response and the thrown network error each set a status
text distinct from the other two (in particular success is still
distinguished from both failures, but the two failure kinds are not
collapsed together). -/
theorem submit_three_distinct_texts (s : FormState) :
    ((submitHandler vipMessages FetchOutcome.success s).statusText ≠
        (submitHandler vipMessages FetchOutcome.httpError s).statusText
      ∧ (submitHandler vipMessages FetchOutcome.success s).statusText ≠
        (submitHandler vipMessages FetchOutcome.networkThrow s).statusText
      ∧ (submitHandler vipMessages FetchOutcome.httpError s).statusText ≠
        (submitHandler vipMessages FetchOutcome.networkThrow s).statusText)
    ∧ ((submitHandler contactMessages FetchOutcome.success s).statusText ≠
        (submitHandler contactMessages FetchOutcome.httpError s).statusText
      ∧ (submitHandler contactMessages FetchOutcome.success s).statusText ≠
        (submitHandler contactMessages FetchOutcome.networkThrow s).statusText
      ∧ (submitHandler contactMessages FetchOutcome.httpError s).statusText ≠
        (submitHandler contactMessages FetchOutcome.networkThrow s).statusText) := by
  refine ⟨⟨?_, ?_, ?_⟩, ?_, ?_, ?_⟩ <;> simp only [submitHandler_statusText] <;> decide

/-- C5: applying an FAQ question's click handler twice in a row returns
the answer's visibility-class membership and the arrow's
rotation-class membership to their prior state, for every starting
state. -/
theorem faq_double_click_restores (e : FaqEntry) :
    ((faqClickHandler (faqClickHandler e)).answer.hasClass showClass =
        e.answer.hasClass showClass)
    ∧ ((faqClickHandler (faqClickHandler e)).arrow.hasClass rotateClass =
        e.arrow.hasClass rotateClass) := by
  constructor <;> simp [faqClickHandler, Elem.hasClass_toggleClass_self]

/-- C6: when the popup element exists and (per the page's initial
markup, which is outside `src/`) starts without the visibility class,
its class membership at time `t` is exactly "the fixed delay has
elapsed": it carries `"show"` at any time from the delay on and not
at any time before. -/
theorem popup_show_timing (p0 : Elem)
    (h0 : p0.hasClass showClass = false) (t : Nat) :
    (popupSetup (some p0) t).map (fun p => p.hasClass showClass) =
      some (decide (popupDelayMs ≤ t)) := by
  unfold popupSetup
  by_cases h : popupDelayMs ≤ t
  · simp [h, Elem.hasClass_addClass_self]
  · simp [h, h0]

/-- C6 witness: with an initially class-free popup, at 1000 ms the
visibility class is present and at 999 ms it is absent. -/
theorem popup_show_timing_witness :
    ((popupSetup (some { classes := [] }) 1000).map
        (fun p => p.hasClass showClass) = some true)
    ∧ ((popupSetup (some { classes := [] }) 999).map
        (fun p => p.hasClass showClass) = some false) := by
  constructor
  · have h := popup_show_timing { classes := [] } (by decide) 1000
    simpa using h
  · have h := popup_show_timing { classes := [] } (by decide) 999
    simpa using h

/-- C7: running the close control's click handler on an existing popup
succeeds and yields a popup that does not carry the visibility class,
whatever classes it carried before. -/
theorem close_click_hides_popup (p : Elem) :
    closeBtnClickHandler (some p) = Except.ok (p.removeClass showClass)
    ∧ (p.removeClass showClass).hasClass showClass = false :=
  ⟨rfl, Elem.hasClass_removeClass_self p showClass⟩

/-- C8: clicking the question of the entry at index `i` leaves every
other entry of the page untouched: entries toggle independently. -/
theorem faq_click_frame (items : List FaqEntry) (i j : Nat) (hij : i ≠ j) :
    (faqPageClick items i)[j]? = items[j]? := by
  induction items generalizing i j with
  | nil => cases i <;> rfl
  | cons e rest ih =>
    cases i with
    | zero =>
      cases j with
      | zero => exact absurd rfl hij
      | succ m =>
        show (faqClickHandler e :: rest)[m + 1]? = (e :: rest)[m + 1]?
        rw [List.getElem?_cons_succ, List.getElem?_cons_succ]
    | succ n =>
      cases j with
      | zero =>
        show (e :: faqPageClick rest n)[0]? = (e :: rest)[0]?
        rw [List.getElem?_cons_zero, List.getElem?_cons_zero]
      | succ m =>
        show (e :: faqPageClick rest n)[m + 1]? = (e :: rest)[m + 1]?
        rw [List.getElem?_cons_succ, List.getElem?_cons_succ]
        exact ih n m (by omega)

/-- A concrete FAQ entry used to instantiate the frame theorem. -/
def sampleEntry : FaqEntry :=
  { answer := { classes := [] }, arrow := { classes := ["open"] } }

/-- C8 witness: clicking entry 0 of a two-entry page leaves entry 1
unchanged. -/
theorem faq_click_frame_witness :
    (0 : Nat) ≠ 1
    ∧ (faqPageClick [sampleEntry, sampleEntry] 0)[1]? =
        [sampleEntry, sampleEntry][1]? :=
  ⟨by decide, faq_click_frame [sampleEntry, sampleEntry] 0 1 (by decide)⟩

/-- C9: the close control's handler dereferences the popup with no null
guard: with a popup present it completes normally, and with the popup
element missing its invocation throws instead of completing. -/
theorem close_missing_popup_throws :
    (∀ p : Elem, closeBtnClickHandler (some p) =
        Except.ok (p.removeClass showClass))
    ∧ closeBtnClickHandler none = Except.error "TypeError: popup is null" :=
  ⟨fun _ => rfl, rfl⟩

/-- C10: when every entry before some entry has a question sub-element
and that entry's question is missing, the attachment loop throws and
only the handlers of the earlier entries are attached; the entry
itself and all later entries never get handlers. -/
theorem faq_attach_aborts (before : List FaqItemDom) (bad : FaqItemDom)
    (after : List FaqItemDom)
    (hbefore : ∀ it ∈ before, it.question.isSome = true)
    (hbad : bad.question = none) :
    (attachFaqHandlers (before ++ bad :: after)).2 = true
    ∧ (attachFaqHandlers (before ++ bad :: after)).1.length = before.length := by
  induction before with
  | nil =>
    rw [List.nil_append]
    unfold attachFaqHandlers
    rw [hbad]
    exact ⟨rfl, rfl⟩
  | cons it rest ih =>
    have hq : it.question.isSome = true := hbefore it (by simp)
    obtain ⟨q, hq'⟩ := Option.isSome_iff_exists.mp hq
    have ih' := ih (fun x hx => hbefore x (by simp [hx]))
    rw [List.cons_append]
    unfold attachFaqHandlers
    rw [hq']
    exact ⟨ih'.1, by simp [ih'.2]⟩

/-- A concrete FAQ item with all sub-elements present. -/
def goodItem : FaqItemDom :=
  { question := some { classes := [] }
    answer := some { classes := [] }
    arrow := some { classes := [] } }

/-- A concrete FAQ item whose question sub-element is missing. -/
def badItem : FaqItemDom :=
  { question := none
    answer := some { classes := [] }
    arrow := some { classes := [] } }

/-- C10 witness: with one good entry, then a question-less entry, then
another good entry, the loop throws and exactly one handler is
attached. -/
theorem faq_attach_aborts_witness :
    (attachFaqHandlers ([goodItem] ++ badItem :: [goodItem])).2 = true
    ∧ (attachFaqHandlers ([goodItem] ++ badItem :: [goodItem])).1.length =
        [goodItem].length :=
  faq_attach_aborts [goodItem] badItem [goodItem] (by decide) (by decide)
